import Mathlib

/-!
Verification of the krank distributed task scheduler (src/krank.py).

The development shallowly embeds the pieces of krank.py that the spec
claims talk about: the timestamp codec (custom_json_encodings and
custom_json_decodings together with datetime.isoformat and
datetime.fromisoformat), the JSON value tree written and read by
Ledger.save and Ledger.from_disk, the Ledger queue operations, and the
Koordinator dispatch exchange.  Time (datetime.datetime.now) is passed
in as an explicit parameter; file and socket input and output are made
explicit data (the on-disk snapshot is a field of the ledger state, the
worker side of a dispatch exchange is an input value).
-/

namespace Krank

/-- Model of a naive (timezone-free) Python datetime value, the only kind
krank.py ever creates (datetime.datetime.now()).  Fields mirror the
datetime attributes used by isoformat. -/
structure Datetime where
  year : Nat
  month : Nat
  day : Nat
  hour : Nat
  minute : Nat
  second : Nat
  microsecond : Nat
deriving DecidableEq

/-- Upper bounds satisfied by every Python datetime object (datetime
validates them at construction); the lower bounds play no role in the
round-trip argument and are omitted. -/
def ValidDatetime (d : Datetime) : Prop :=
  d.year ≤ 9999 ∧ d.month ≤ 12 ∧ d.day ≤ 31 ∧ d.hour ≤ 23 ∧
    d.minute ≤ 59 ∧ d.second ≤ 59 ∧ d.microsecond ≤ 999999

instance (d : Datetime) : Decidable (ValidDatetime d) := by
  unfold ValidDatetime; infer_instance

/-- Decimal digit to its character. -/
def digitChar (d : Nat) : Char :=
  match d with
  | 0 => '0'
  | 1 => '1'
  | 2 => '2'
  | 3 => '3'
  | 4 => '4'
  | 5 => '5'
  | 6 => '6'
  | 7 => '7'
  | 8 => '8'
  | 9 => '9'
  | _ => '?'

/-- Character back to a decimal digit, if it is one. -/
def charDigit (c : Char) : Option Nat :=
  if '0' ≤ c ∧ c ≤ '9' then some (c.toNat - 48) else none

/-- Fixed-width, zero-padded decimal rendering of a number, most
significant digit first (the %04d style padding used by isoformat). -/
def padDigits : Nat → Nat → List Char
  | 0, _ => []
  | w + 1, n => padDigits w (n / 10) ++ [digitChar (n % 10)]

/-- Read a run of decimal digits, extending the accumulator. -/
def parseDigits : List Char → Nat → Option Nat
  | [], acc => some acc
  | c :: rest, acc =>
    match charDigit c with
    | some d => parseDigits rest (10 * acc + d)
    | none => none

theorem charDigit_digitChar {d : Nat} (h : d < 10) :
    charDigit (digitChar d) = some d := by
  interval_cases d <;> decide

theorem padDigits_length (w n : Nat) : (padDigits w n).length = w := by
  induction w generalizing n with
  | zero => rfl
  | succ w ih => simp [padDigits, ih]

theorem parseDigits_append (xs ys : List Char) (acc : Nat) :
    parseDigits (xs ++ ys) acc =
      match parseDigits xs acc with
      | some a => parseDigits ys a
      | none => none := by
  induction xs generalizing acc with
  | nil => rfl
  | cons c rest ih =>
    simp only [List.cons_append, parseDigits]
    cases charDigit c with
    | none => rfl
    | some d => simp [ih]

theorem parseDigits_padDigits (w : Nat) :
    ∀ n acc, n < 10 ^ w →
      parseDigits (padDigits w n) acc = some (acc * 10 ^ w + n) := by
  induction w with
  | zero =>
    intro n acc h
    interval_cases n
    simp [padDigits, parseDigits]
  | succ w ih =>
    intro n acc h
    have hdiv : n / 10 < 10 ^ w := by
      have h10 : n < 10 ^ w * 10 := by
        calc n < 10 ^ (w + 1) := h
        _ = 10 ^ w * 10 := by ring
      omega
    have hmod : n % 10 < 10 := Nat.mod_lt _ (by omega)
    simp only [padDigits, parseDigits_append, ih (n / 10) acc hdiv, parseDigits,
      charDigit_digitChar hmod]
    congr 1
    have : 10 * (n / 10) + n % 10 = n := Nat.div_add_mod n 10
    ring_nf
    omega

/-- Fractional-second suffix of isoformat: omitted when the microsecond
field is zero, otherwise a dot followed by six zero-padded digits. -/
def microTail (us : Nat) : List Char :=
  if us = 0 then [] else '.' :: padDigits 6 us

/-- Characters of datetime.isoformat() for a naive datetime:
YYYY-MM-DDTHH:MM:SS with the optional .ffffff suffix. -/
def isoformatChars (d : Datetime) : List Char :=
  padDigits 4 d.year ++ '-' ::
    (padDigits 2 d.month ++ '-' ::
      (padDigits 2 d.day ++ 'T' ::
        (padDigits 2 d.hour ++ ':' ::
          (padDigits 2 d.minute ++ ':' ::
            (padDigits 2 d.second ++ microTail d.microsecond)))))

/-- Model of datetime.isoformat (krank.py line 54). -/
def isoformat (d : Datetime) : String :=
  String.mk (isoformatChars d)

/-- Take a fixed-width decimal field off the front of the input. -/
def parseFixed (w : Nat) (cs : List Char) : Option (Nat × List Char) :=
  if (cs.take w).length = w then
    match parseDigits (cs.take w) 0 with
    | some n => some (n, cs.drop w)
    | none => none
  else none

/-- Consume one expected separator character. -/
def parseSep (c : Char) : List Char → Option (List Char)
  | c' :: rest => if c' = c then some rest else none
  | [] => none

/-- Model of datetime.datetime.fromisoformat (krank.py line 46) on the
grammar that isoformat emits for naive datetimes; inputs outside that
grammar are rejected, as fromisoformat rejects malformed strings (the
model does not re-validate field ranges, since every datetime object the
program serializes already satisfies them). -/
def fromisoformatChars (cs : List Char) : Option Datetime :=
  match parseFixed 4 cs with
  | none => none
  | some (y, cs) =>
  match parseSep '-' cs with
  | none => none
  | some cs =>
  match parseFixed 2 cs with
  | none => none
  | some (mo, cs) =>
  match parseSep '-' cs with
  | none => none
  | some cs =>
  match parseFixed 2 cs with
  | none => none
  | some (da, cs) =>
  match parseSep 'T' cs with
  | none => none
  | some cs =>
  match parseFixed 2 cs with
  | none => none
  | some (h, cs) =>
  match parseSep ':' cs with
  | none => none
  | some cs =>
  match parseFixed 2 cs with
  | none => none
  | some (mi, cs) =>
  match parseSep ':' cs with
  | none => none
  | some cs =>
  match parseFixed 2 cs with
  | none => none
  | some (s, cs) =>
  match cs with
  | [] => some ⟨y, mo, da, h, mi, s, 0⟩
  | _ :: _ =>
    match parseSep '.' cs with
    | none => none
    | some cs =>
    match parseFixed 6 cs with
    | some (us, []) => some ⟨y, mo, da, h, mi, s, us⟩
    | _ => none

/-- String-level entry point mirroring fromisoformat. -/
def fromisoformat (s : String) : Option Datetime :=
  fromisoformatChars s.data

theorem parseFixed_padDigits {w n : Nat} (rest : List Char) (h : n < 10 ^ w) :
    parseFixed w (padDigits w n ++ rest) = some (n, rest) := by
  have hlen : (padDigits w n).length = w := padDigits_length w n
  have htake := List.take_left (padDigits w n) rest
  have hdrop := List.drop_left (padDigits w n) rest
  rw [hlen] at htake hdrop
  unfold parseFixed
  rw [htake, hdrop, hlen, parseDigits_padDigits w n 0 h]
  simp

theorem parseSep_cons (c : Char) (rest : List Char) :
    parseSep c (c :: rest) = some rest := by
  simp [parseSep]

theorem fromisoformat_isoformat (d : Datetime) (h : ValidDatetime d) :
    fromisoformat (isoformat d) = some d := by
  obtain ⟨y, mo, da, hh, mi, s, us⟩ := d
  obtain ⟨h1, h2, h3, h4, h5, h6, h7⟩ := h
  have h1' : y ≤ 9999 := h1
  have h2' : mo ≤ 12 := h2
  have h3' : da ≤ 31 := h3
  have h4' : hh ≤ 23 := h4
  have h5' : mi ≤ 59 := h5
  have h6' : s ≤ 59 := h6
  have h7' : us ≤ 999999 := h7
  have hy : y < 10 ^ 4 := by norm_num; omega
  have hmo : mo < 10 ^ 2 := by norm_num; omega
  have hda : da < 10 ^ 2 := by norm_num; omega
  have hhh : hh < 10 ^ 2 := by norm_num; omega
  have hmi : mi < 10 ^ 2 := by norm_num; omega
  have hs : s < 10 ^ 2 := by norm_num; omega
  have hus : us < 10 ^ 6 := by norm_num; omega
  show fromisoformatChars (isoformatChars _) = _
  simp only [isoformatChars, fromisoformatChars,
    parseFixed_padDigits _ hy, parseSep_cons,
    parseFixed_padDigits _ hmo, parseFixed_padDigits _ hda,
    parseFixed_padDigits _ hhh, parseFixed_padDigits _ hmi,
    parseFixed_padDigits _ hs]
  by_cases h0 : us = 0
  · subst h0
    simp [microTail]
  · have hmt : microTail us = '.' :: (padDigits 6 us ++ []) := by
      simp [microTail, h0]
    rw [hmt]
    simp only [parseSep_cons, parseFixed_padDigits _ hus]

/-- JSON value tree, the shape of data in the snapshot file.  krank.py
only ever writes numbers, strings, arrays and objects, so those are the
constructors modelled. -/
inductive JValue where
  | jnum (n : Nat)
  | jstr (s : String)
  | jarr (items : List JValue)
  | jobj (fields : List (String × JValue))

/-- Python value tree as held in memory by the ledger: JSON base types
plus datetime objects.  Dicts are ordered key-value lists, matching
Python dict insertion order. -/
inductive PyValue where
  | pynum (n : Nat)
  | pystr (s : String)
  | pylist (items : List PyValue)
  | pydict (fields : List (String × PyValue))
  | pydatetime (d : Datetime)

/-- Model of custom_json_encodings (krank.py lines 50-57): a datetime
becomes the tagged dict, anything else raises TypeError (none).  Other
values never reach it, because json.dump serializes them natively. -/
def custom_json_encodings (obj : PyValue) : Option PyValue :=
  match obj with
  | PyValue.pydatetime d =>
    some (PyValue.pydict
      [("__isoformat__", PyValue.pynum 1), ("datetime", PyValue.pystr (isoformat d))])
  | _ => none

mutual

/-- Model of json.dump with custom_json_encodings as default (krank.py
line 115): base values serialize natively; a datetime is replaced by the
tagged dict returned by the default hook, whose fields are base values. -/
def json_dump : PyValue → Option JValue
  | PyValue.pynum n => some (JValue.jnum n)
  | PyValue.pystr s => some (JValue.jstr s)
  | PyValue.pylist items =>
    match json_dump_list items with
    | some js => some (JValue.jarr js)
    | none => none
  | PyValue.pydict fields =>
    match json_dump_fields fields with
    | some fs => some (JValue.jobj fs)
    | none => none
  | PyValue.pydatetime d =>
    some (JValue.jobj
      [("__isoformat__", JValue.jnum 1), ("datetime", JValue.jstr (isoformat d))])

/-- Serialization of the items of a Python list, left to right. -/
def json_dump_list : List PyValue → Option (List JValue)
  | [] => some []
  | v :: vs =>
    match json_dump v, json_dump_list vs with
    | some j, some js => some (j :: js)
    | _, _ => none

/-- Serialization of the fields of a Python dict, in insertion order. -/
def json_dump_fields : List (String × PyValue) → Option (List (String × JValue))
  | [] => some []
  | (k, v) :: fs =>
    match json_dump v, json_dump_fields fs with
    | some j, some js => some ((k, j) :: js)
    | _, _ => none

end

/-- Model of custom_json_decodings (krank.py lines 44-47), the
object_hook json.load applies to every parsed dict, bottom-up: a dict
carrying the __isoformat__ tag is replaced by the datetime parsed from
its datetime field (KeyError if the field is missing, TypeError if it is
not a string, ValueError if it does not parse: all none); any other dict
is returned unchanged. -/
def custom_json_decodings (fields : List (String × PyValue)) : Option PyValue :=
  match fields.lookup "__isoformat__" with
  | some _ =>
    match fields.lookup "datetime" with
    | some (PyValue.pystr s) => (fromisoformat s).map PyValue.pydatetime
    | some _ => none
    | none => none
  | none => some (PyValue.pydict fields)

mutual

/-- Model of json.load with object_hook custom_json_decodings (krank.py
lines 104-105): rebuild the value tree, applying the hook to every
object. -/
def json_load : JValue → Option PyValue
  | JValue.jnum n => some (PyValue.pynum n)
  | JValue.jstr s => some (PyValue.pystr s)
  | JValue.jarr items =>
    match json_load_list items with
    | some vs => some (PyValue.pylist vs)
    | none => none
  | JValue.jobj fields =>
    match json_load_fields fields with
    | some fs => custom_json_decodings fs
    | none => none

/-- Deserialization of the items of a JSON array, left to right. -/
def json_load_list : List JValue → Option (List PyValue)
  | [] => some []
  | j :: js =>
    match json_load j, json_load_list js with
    | some v, some vs => some (v :: vs)
    | _, _ => none

/-- Deserialization of the fields of a JSON object, in order. -/
def json_load_fields : List (String × JValue) → Option (List (String × PyValue))
  | [] => some []
  | (k, j) :: fs =>
    match json_load j, json_load_fields fs with
    | some v, some vs => some ((k, v) :: vs)
    | _, _ => none

end

/-- MAX_ATTEMPTS (krank.py line 36). -/
def MAX_ATTEMPTS : Nat := 5

/-- Koordinator and Klient lifecycle states (krank.py line 26). -/
def STARTING : Nat := 1

/-- Coordinator state RUNNING. -/
def RUNNING : Nat := 2

/-- Coordinator state STOPPING. -/
def STOPPING : Nat := 3

/-- Coordinator state STOPPED. -/
def STOPPED : Nat := 4

/-- The four queue names, in declaration order (krank.py lines 22-24). -/
def TASK_STATES : List String := ["WAITING", "CLAIMED", "COMPLETED", "FAILED"]

/-- A task record (krank.py lines 118-123 and 130-137): a command string
with bookkeeping timestamps and an attempts counter. -/
structure Task where
  command : String
  created : Datetime
  changed : Datetime
  attempts : Nat
deriving DecidableEq

/-- The four queues of the ledger store (krank.py lines 92-97), each an
ordered list of task records. -/
structure Store where
  waiting : List Task
  claimed : List Task
  completed : List Task
  failed : List Task
deriving DecidableEq

/-- Python value of a task dict, keys in the insertion order used by
add_command and add_many. -/
def task_to_py (t : Task) : PyValue :=
  PyValue.pydict
    [("command", PyValue.pystr t.command),
     ("created", PyValue.pydatetime t.created),
     ("changed", PyValue.pydatetime t.changed),
     ("attempts", PyValue.pynum t.attempts)]

/-- Python value of the store dict, keys in the insertion order of
Ledger.__init__. -/
def store_to_py (s : Store) : PyValue :=
  PyValue.pydict
    [("WAITING", PyValue.pylist (s.waiting.map task_to_py)),
     ("CLAIMED", PyValue.pylist (s.claimed.map task_to_py)),
     ("COMPLETED", PyValue.pylist (s.completed.map task_to_py)),
     ("FAILED", PyValue.pylist (s.failed.map task_to_py))]

/-- Ledger state: the in-memory store plus the current contents of the
on-disk snapshot file (none while no file exists).  The persistence
file path is constant over a run and is not modelled. -/
structure Ledger where
  store : Store
  disk : Option JValue

/-- Model of Ledger.save (krank.py lines 113-115): the snapshot file is
overwritten with the serialization of the current store. -/
def Ledger.save (l : Ledger) : Ledger :=
  { l with disk := json_dump (store_to_py l.store) }

/-- Model of Ledger.add_command (krank.py lines 117-126): append a fresh
task to waiting and save.  The two datetime.now() calls are modelled by
the single parameter now. -/
def add_command (now : Datetime) (command : String) (l : Ledger) : Task × Ledger :=
  let task : Task := { command := command, created := now, changed := now, attempts := 0 }
  (task, Ledger.save { l with store := { l.store with waiting := l.store.waiting ++ [task] } })

/-- Model of Ledger.add_many (krank.py lines 128-139): build one task
per option combination, with the base command joined to the options by
spaces, and extend waiting with them.  Note: unlike every other mutating
operation of the class, the method body never calls save. -/
def add_many (now : Datetime) (command : String) (options_iterable : List (List String))
    (l : Ledger) : List Task × Ledger :=
  let tasks : List Task := options_iterable.map (fun options =>
    { command := command ++ " " ++ String.intercalate " " options,
      created := now, changed := now, attempts := 0 })
  (tasks, { l with store := { l.store with waiting := l.store.waiting ++ tasks } })

/-- Combined model of list.index(task) followed by list.pop(idx) as used
by complete_task and unclaim_task: remove and return the first element
equal (by value) to task, or none for the ValueError index raises when
the task is absent. -/
def index_pop (task : Task) : List Task → Option (Task × List Task)
  | [] => none
  | t :: rest =>
    if t = task then some (t, rest)
    else
      match index_pop task rest with
      | some (popped, rest') => some (popped, t :: rest')
      | none => none

/-- Model of Ledger.get_waiting_task (krank.py lines 141-147): pop the
head of waiting (IndexError, modelled as none, when it is empty),
increment its attempts, stamp changed, append it to claimed, save, and
return it. -/
def get_waiting_task (now : Datetime) (l : Ledger) : Option (Task × Ledger) :=
  match l.store.waiting with
  | [] => none
  | task :: rest =>
    let task' : Task := { task with attempts := task.attempts + 1, changed := now }
    some (task',
      Ledger.save { l with store :=
        { l.store with waiting := rest, claimed := l.store.claimed ++ [task'] } })

/-- Model of Ledger.complete_task (krank.py lines 149-160): remove the
first occurrence of the task from claimed (ValueError, modelled as
none, when absent), stamp changed, append it to completed, save, and
return it.  The prints are omitted; both asserts always hold. -/
def complete_task (now : Datetime) (task : Task) (l : Ledger) : Option (Task × Ledger) :=
  match index_pop task l.store.claimed with
  | none => none
  | some (popped, claimed') =>
    let task' : Task := { popped with changed := now }
    some (task',
      Ledger.save { l with store :=
        { l.store with claimed := claimed', completed := l.store.completed ++ [task'] } })

/-- Model of Ledger.unclaim_task (krank.py lines 162-170): remove the
first occurrence of the task from claimed (ValueError, modelled as
none, when absent), then append it to waiting when its attempts are
below MAX_ATTEMPTS and to failed otherwise, and save. -/
def unclaim_task (task : Task) (l : Ledger) : Option (Task × Ledger) :=
  match index_pop task l.store.claimed with
  | none => none
  | some (popped, claimed') =>
    if popped.attempts < MAX_ATTEMPTS then
      some (popped,
        Ledger.save { l with store :=
          { l.store with claimed := claimed', waiting := l.store.waiting ++ [popped] } })
    else
      some (popped,
        Ledger.save { l with store :=
          { l.store with claimed := claimed', failed := l.store.failed ++ [popped] } })

/-- Membership check of the key set of a parsed store against the four
queue names, modelling set(store.keys()) == set(TASK_STATES). -/
def setEqStr (xs ys : List String) : Bool :=
  xs.all (fun x => ys.contains x) && ys.all (fun y => xs.contains y)

/-- Model of the existing-file branch of Ledger.from_disk (krank.py
lines 102-108) applied to the parsed snapshot: run json.load with the
decoding hook, then require the loaded value to be a dict whose key set
equals the four queue names; the RuntimeError for a wrong key set is
the CorruptLedger failure of the spec.  A loaded value that is not a
dict makes store.keys() raise AttributeError, also modelled as error. -/
def from_disk_check (j : JValue) : Except String PyValue :=
  match json_load j with
  | none => Except.error "json decode error"
  | some store =>
    match store with
    | PyValue.pydict fields =>
      if setEqStr (fields.map Prod.fst) TASK_STATES then Except.ok store
      else Except.error "is not a valid state file"
    | _ => Except.error "AttributeError"

/-- Message sent by the coordinator in one dispatch exchange (krank.py
lines 251-269): TASK_START with the command, CHECK_LATER, or
SHUTDOWN. -/
inductive WireMsg where
  | taskStartMsg (command : String)
  | checkLaterMsg
  | shutdownMsg
deriving DecidableEq

/-- Type tag of the single response line read from the klient (krank.py
lines 292-301): the four known message types, or an unknown tag. -/
inductive KResponse where
  | taskSuccess
  | taskFailed
  | respCheckLater
  | respShutdown
  | unknownType
deriving DecidableEq

/-- What the coordinator observes of the klient side of one exchange:
the read times out (asyncio.TimeoutError), the line is not valid JSON
(json.JSONDecodeError), or a well-formed response arrives. -/
inductive ExchangeInput where
  | timeoutErr
  | malformedJson
  | response (r : KResponse)
deriving DecidableEq

/-- Observable outcome of one Koordinator.dispatch call: the ledger
afterwards, the task handed out (if any), the message sent, whether the
connection was closed, whether an exception escaped the handler, whether
stop() was called, and the coordinator state when dispatch ends. -/
structure DispatchResult where
  ledger : Ledger
  handedTask : Option Task
  sent : WireMsg
  connClosed : Bool
  handlerError : Bool
  initiatedShutdown : Bool
  koordState : Nat

/-- The except branch of dispatch (krank.py lines 283-291): on timeout
or JSON decode error, unclaim the task if one was claimed for this
exchange, then return; the finally block has closed the writer.  The
inner none case cannot occur (the claimed task is in claimed); if it
did, the ValueError would escape the handler. -/
def dispatch_failure (l1 : Ledger) (next_task : Option Task) (message : WireMsg) :
    DispatchResult :=
  match next_task with
  | some t =>
    match unclaim_task t l1 with
    | some (_, l2) =>
      { ledger := l2, handedTask := next_task, sent := message, connClosed := true,
        handlerError := false, initiatedShutdown := false, koordState := RUNNING }
    | none =>
      { ledger := l1, handedTask := next_task, sent := message, connClosed := true,
        handlerError := true, initiatedShutdown := false, koordState := RUNNING }
  | none =>
    { ledger := l1, handedTask := none, sent := message, connClosed := true,
      handlerError := false, initiatedShutdown := false, koordState := RUNNING }

/-- An exception escaping the response handling (ValueError from
complete_task or unclaim_task on a missing or absent task, or the
RuntimeError for an unknown message type, krank.py line 301): the
connection is already closed by the finally block, stop() is never
reached. -/
def dispatch_error (l1 : Ledger) (next_task : Option Task) (message : WireMsg) :
    DispatchResult :=
  { ledger := l1, handedTask := next_task, sent := message, connClosed := true,
    handlerError := true, initiatedShutdown := false, koordState := RUNNING }

/-- End of the normal path of dispatch (krank.py lines 302-305): stop()
is called exactly when no task was handed out and claimed is empty,
moving the coordinator to STOPPED (via STOPPING and the grace sleep,
krank.py lines 228-236). -/
def dispatch_epilogue (l2 : Ledger) (next_task : Option Task) (message : WireMsg) :
    DispatchResult :=
  let shutdownNow : Bool := next_task.isNone && l2.store.claimed.length == 0
  { ledger := l2, handedTask := next_task, sent := message, connClosed := true,
    handlerError := false, initiatedShutdown := shutdownNow,
    koordState := if shutdownNow then STOPPED else RUNNING }

/-- Handling of a well-formed response (krank.py lines 292-305).
complete_task and unclaim_task receive next_task, which is None when no
task was claimed; list.index(None) then raises ValueError. -/
def dispatch_response (now : Datetime) (l1 : Ledger) (next_task : Option Task)
    (message : WireMsg) (r : KResponse) : DispatchResult :=
  match r with
  | KResponse.taskSuccess =>
    match next_task with
    | some t =>
      match complete_task now t l1 with
      | some (_, l2) => dispatch_epilogue l2 next_task message
      | none => dispatch_error l1 next_task message
    | none => dispatch_error l1 next_task message
  | KResponse.taskFailed =>
    match next_task with
    | some t =>
      match unclaim_task t l1 with
      | some (_, l2) => dispatch_epilogue l2 next_task message
      | none => dispatch_error l1 next_task message
    | none => dispatch_error l1 next_task message
  | KResponse.respCheckLater => dispatch_epilogue l1 next_task message
  | KResponse.respShutdown => dispatch_epilogue l1 next_task message
  | KResponse.unknownType => dispatch_error l1 next_task message

/-- Model of Koordinator.dispatch (krank.py lines 238-305) for one
accepted connection: claim a task when waiting is non-empty, choose the
outgoing message from the ledger state, then handle the klient response
described by input.  datetime.now() calls are modelled by the parameter
now. -/
def dispatch (now : Datetime) (l : Ledger) (input : ExchangeInput) : DispatchResult :=
  let step1 : Option Task × Ledger :=
    if l.store.waiting.length != 0 then
      match get_waiting_task now l with
      | some (t, l1) => (some t, l1)
      | none => (none, l)
    else (none, l)
  let next_task := step1.1
  let l1 := step1.2
  let message : WireMsg :=
    match next_task with
    | some t => WireMsg.taskStartMsg t.command
    | none =>
      if l1.store.claimed.length != 0 then WireMsg.checkLaterMsg
      else WireMsg.shutdownMsg
  match input with
  | ExchangeInput.timeoutErr => dispatch_failure l1 next_task message
  | ExchangeInput.malformedJson => dispatch_failure l1 next_task message
  | ExchangeInput.response r => dispatch_response now l1 next_task message r

/-- Top-level names bound in the krank module (imports, constants,
functions and classes of krank.py), the global scope visible inside
Klient.__init__. -/
def krank_module_globals : List String :=
  ["sys", "os", "socket", "Path", "argparse", "json", "asyncio", "datetime",
   "itertools", "subprocess",
   "DEFAULT_INTERFACE", "DEFAULT_PORT",
   "DEFAULT_CONNECTION_INFO_FILENAME", "DEFAULT_LEDGER_FILENAME",
   "WAITING", "CLAIMED", "COMPLETED", "FAILED", "TASK_STATES",
   "STARTING", "RUNNING", "STOPPING", "STOPPED",
   "MSG_TASK_START", "MSG_TASK_SUCCESS", "MSG_TASK_FAILED", "MSG_SHUTDOWN",
   "MSG_CHECK_LATER",
   "MAX_ATTEMPTS", "RECONNECTION_WAIT_SEC", "CHECK_RUNNING_TASKS_SEC",
   "MAX_COMMUNICATION_WAIT_SEC", "MAX_TASK_EXECUTION_SEC",
   "SHUTDOWN_WAIT_SEC", "ABANDONED_KLIENT_TIMEOUT_SEC",
   "custom_json_decodings", "custom_json_encodings",
   "hostname_to_ips", "hostname_to_ip",
   "Ledger", "flatten", "Permutator", "Koordinator", "Klient",
   "write_connection_info", "read_connection_info",
   "start_koordinator", "start_klient", "main"]

/-- Local names bound in Klient.__init__ when the f-string on krank.py
line 332 is evaluated: only the parameters, since the preceding
statements assign attributes of self, not local variables. -/
def klient_init_local_names : List String :=
  ["self", "koordinator_host", "koordinator_port", "dummy"]

/-- Builtin names a Python module sees; listing those used anywhere in
krank.py is enough, since connection_info is not a builtin. -/
def python_builtins_used : List String :=
  ["print", "isinstance", "len", "set", "range", "map", "list", "max",
   "repr", "open", "str"]

/-- Python name resolution at the failing statement of Klient.__init__:
locals, then module globals, then builtins. -/
def klient_name_defined (name : String) : Bool :=
  klient_init_local_names.contains name || krank_module_globals.contains name ||
    python_builtins_used.contains name

/-- A Python runtime error surfaced by the Klient model. -/
inductive PyErr where
  | nameError (name : String)
deriving DecidableEq

/-- Model of Klient.__init__ (krank.py lines 328-337).  The attribute
assignments before the print succeed; the f-string on line 332 then
evaluates the name connection_info, which must raise NameError unless
the name is bound in some enclosing scope.  The statements after the
print (hostname_to_ip, a network call) are beyond the modelled prefix
and are only reached if the lookup succeeds. -/
def klient_init (koordinator_host : String) (koordinator_port : Nat) (dummy : Bool) :
    Except PyErr Unit :=
  if klient_name_defined "connection_info" then Except.ok ()
  else Except.error (PyErr.nameError "connection_info")

/-- Identity of a task record across queue moves: the command and
created fields are never mutated by any ledger operation (claimNext
changes only attempts and changed), so the pair identifies the record
through its lifecycle. -/
def taskKey (t : Task) : String × Datetime :=
  (t.command, t.created)

/-- One ledger call from the sequences the invariant quantifies over:
get_waiting_task, complete_task or unclaim_task, with its arguments. -/
inductive LedgerOp where
  | claimNext (now : Datetime)
  | complete (now : Datetime) (task : Task)
  | unclaim (task : Task)

/-- Apply one call to the ledger.  A failing call (empty waiting queue,
task not in claimed) raises in Python before making any mutation, so
the ledger it leaves behind is unchanged. -/
def applyOp : LedgerOp → Ledger → Ledger
  | LedgerOp.claimNext now, l =>
    match get_waiting_task now l with
    | some (_, l') => l'
    | none => l
  | LedgerOp.complete now task, l =>
    match complete_task now task l with
    | some (_, l') => l'
    | none => l
  | LedgerOp.unclaim task, l =>
    match unclaim_task task l with
    | some (_, l') => l'
    | none => l

/-- Run a sequence of ledger calls left to right. -/
def runOps : List LedgerOp → Ledger → Ledger
  | [], l => l
  | op :: ops, l => runOps ops (applyOp op l)

/-- Multiset of the identities of every task in the four queues
together. -/
def allKeys (s : Store) : Multiset (String × Datetime) :=
  (↑(s.waiting.map taskKey) + ↑(s.claimed.map taskKey) +
    ↑(s.completed.map taskKey) + ↑(s.failed.map taskKey) : Multiset (String × Datetime))

theorem index_pop_result (task : Task) :
    ∀ xs p ys, index_pop task xs = some (p, ys) → p = task ∧ xs.Perm (p :: ys) := by
  intro xs
  induction xs with
  | nil => intro p ys h; simp [index_pop] at h
  | cons t rest ih =>
    intro p ys h
    by_cases ht : t = task
    · rw [index_pop, if_pos ht] at h
      obtain ⟨hp, hys⟩ := Prod.mk.injEq .. ▸ Option.some.inj h
      subst hp; subst hys
      exact ⟨ht, List.Perm.refl _⟩
    · rw [index_pop, if_neg ht] at h
      cases hrec : index_pop task rest with
      | none => rw [hrec] at h; exact absurd h (by simp)
      | some pr =>
        obtain ⟨p', ys'⟩ := pr
        rw [hrec] at h
        obtain ⟨hp, hys⟩ := Prod.mk.injEq .. ▸ Option.some.inj h
        obtain ⟨hpt, hperm⟩ := ih p' ys' hrec
        subst hp; subst hys; subst hpt
        refine ⟨rfl, ?_⟩
        exact (hperm.cons t).trans (List.Perm.swap p' t ys')

theorem index_pop_of_mem (task : Task) :
    ∀ xs, task ∈ xs → ∃ ys, index_pop task xs = some (task, ys) := by
  intro xs
  induction xs with
  | nil => intro h; exact absurd h (List.not_mem_nil _)
  | cons t rest ih =>
    intro h
    by_cases ht : t = task
    · exact ⟨rest, by rw [index_pop, if_pos ht, ht]⟩
    · have hmem : task ∈ rest := by
        cases List.mem_cons.mp h with
        | inl heq => exact absurd heq.symm ht
        | inr hm => exact hm
      obtain ⟨ys, hys⟩ := ih hmem
      exact ⟨t :: ys, by rw [index_pop, if_neg ht, hys]⟩

theorem index_pop_append_of_not_mem (task : Task) :
    ∀ xs, task ∉ xs → index_pop task (xs ++ [task]) = some (task, xs) := by
  intro xs
  induction xs with
  | nil => intro _; simp [index_pop]
  | cons t rest ih =>
    intro h
    have ht : ¬ t = task := fun heq => h (heq ▸ List.mem_cons_self t rest)
    have hrest : task ∉ rest := fun hm => h (List.mem_cons_of_mem t hm)
    rw [List.cons_append, index_pop, if_neg ht, ih hrest]

theorem taskKey_perm_of_index_pop {task p : Task} {xs ys : List Task}
    (h : index_pop task xs = some (p, ys)) :
    (↑(xs.map taskKey) : Multiset (String × Datetime)) = taskKey p ::ₘ ↑(ys.map taskKey) := by
  obtain ⟨-, hperm⟩ := index_pop_result task xs p ys h
  have := (hperm.map taskKey)
  calc (↑(xs.map taskKey) : Multiset (String × Datetime))
      = (↑(((p :: ys).map taskKey)) : Multiset (String × Datetime)) :=
        Multiset.coe_eq_coe.mpr this
  _ = taskKey p ::ₘ ↑(ys.map taskKey) := by simp

theorem allKeys_get_waiting_task {now : Datetime} {l : Ledger} {t : Task} {l' : Ledger}
    (h : get_waiting_task now l = some (t, l')) :
    allKeys l'.store = allKeys l.store := by
  unfold get_waiting_task at h
  cases hw : l.store.waiting with
  | nil => rw [hw] at h; exact absurd h (by simp)
  | cons task rest =>
    rw [hw] at h
    obtain ⟨-, hl⟩ := Prod.mk.injEq .. ▸ Option.some.inj h
    subst hl
    have hkey : taskKey { task with attempts := task.attempts + 1, changed := now } =
        taskKey task := rfl
    simp only [allKeys, Ledger.save, hw, List.map_append, List.map_cons, hkey,
      ← Multiset.coe_add, ← Multiset.cons_coe, ← Multiset.singleton_add,
      Multiset.coe_nil]
    abel

theorem allKeys_complete_task {now : Datetime} {task : Task} {l : Ledger} {t : Task}
    {l' : Ledger} (h : complete_task now task l = some (t, l')) :
    allKeys l'.store = allKeys l.store := by
  unfold complete_task at h
  cases hip : index_pop task l.store.claimed with
  | none => rw [hip] at h; exact absurd h (by simp)
  | some pr =>
    obtain ⟨popped, claimed'⟩ := pr
    rw [hip] at h
    obtain ⟨-, hl⟩ := Prod.mk.injEq .. ▸ Option.some.inj h
    subst hl
    have hclaimed := taskKey_perm_of_index_pop hip
    have hkey : taskKey { popped with changed := now } = taskKey popped := rfl
    simp only [allKeys, Ledger.save, hclaimed, List.map_append, List.map_cons, hkey,
      ← Multiset.coe_add, ← Multiset.cons_coe, ← Multiset.singleton_add,
      Multiset.coe_nil]
    abel

theorem allKeys_unclaim_task {task : Task} {l : Ledger} {t : Task} {l' : Ledger}
    (h : unclaim_task task l = some (t, l')) :
    allKeys l'.store = allKeys l.store := by
  unfold unclaim_task at h
  cases hip : index_pop task l.store.claimed with
  | none => rw [hip] at h; exact absurd h (by simp)
  | some pr =>
    obtain ⟨popped, claimed'⟩ := pr
    rw [hip] at h
    dsimp only at h
    have hclaimed := taskKey_perm_of_index_pop hip
    by_cases hatt : popped.attempts < MAX_ATTEMPTS
    · rw [if_pos hatt] at h
      obtain ⟨-, hl⟩ := Prod.mk.injEq .. ▸ Option.some.inj h
      subst hl
      simp only [allKeys, Ledger.save, hclaimed, List.map_append, List.map_cons,
        ← Multiset.coe_add, ← Multiset.cons_coe, ← Multiset.singleton_add,
        Multiset.coe_nil]
      abel
    · rw [if_neg hatt] at h
      obtain ⟨-, hl⟩ := Prod.mk.injEq .. ▸ Option.some.inj h
      subst hl
      simp only [allKeys, Ledger.save, hclaimed, List.map_append, List.map_cons,
        ← Multiset.coe_add, ← Multiset.cons_coe, ← Multiset.singleton_add,
        Multiset.coe_nil]
      abel

theorem allKeys_applyOp (op : LedgerOp) (l : Ledger) :
    allKeys (applyOp op l).store = allKeys l.store := by
  cases op with
  | claimNext now =>
    cases h : get_waiting_task now l with
    | none => simp [applyOp, h]
    | some pr =>
      obtain ⟨t, l'⟩ := pr
      simpa [applyOp, h] using allKeys_get_waiting_task h
  | complete now task =>
    cases h : complete_task now task l with
    | none => simp [applyOp, h]
    | some pr =>
      obtain ⟨t, l'⟩ := pr
      simpa [applyOp, h] using allKeys_complete_task h
  | unclaim task =>
    cases h : unclaim_task task l with
    | none => simp [applyOp, h]
    | some pr =>
      obtain ⟨t, l'⟩ := pr
      simpa [applyOp, h] using allKeys_unclaim_task h

theorem allKeys_runOps (ops : List LedgerOp) :
    ∀ l : Ledger, allKeys (runOps ops l).store = allKeys l.store := by
  induction ops with
  | nil => intro l; rfl
  | cons op ops ih =>
    intro l
    calc allKeys (runOps ops (applyOp op l)).store
        = allKeys (applyOp op l).store := ih _
    _ = allKeys l.store := allKeys_applyOp op l

/-- Concrete timestamp used by witnesses. -/
def d2024 : Datetime := ⟨2024, 1, 2, 3, 4, 5, 0⟩

/-- A later concrete timestamp used by witnesses. -/
def d2024b : Datetime := ⟨2024, 1, 2, 3, 4, 6, 789⟩

/-- A fresh concrete task used by witnesses. -/
def task0 : Task := { command := "echo a", created := d2024, changed := d2024, attempts := 0 }

/-- A concrete task that has reached MAX_ATTEMPTS, used by witnesses. -/
def task5 : Task := { command := "echo c", created := d2024, changed := d2024, attempts := 5 }

/-- The empty store of a fresh ledger. -/
def emptyStore : Store := ⟨[], [], [], []⟩

/-- A fresh ledger as produced by from_disk on a missing file: empty
queues, already saved once. -/
def ledger0 : Ledger := Ledger.save { store := emptyStore, disk := none }

/-- A concrete ledger with one waiting and one claimed task, used by
witnesses. -/
def ledger1 : Ledger :=
  { store := { waiting := [task0], claimed := [task5], completed := [], failed := [] },
    disk := none }

/-- C1: starting from any ledger in which a task identity occurs exactly
once across the four queues, after any sequence of get_waiting_task,
complete_task and unclaim_task calls that identity still occurs exactly
once across the four queues: the task is never duplicated into a second
queue and never lost.  Every intermediate state of a call sequence is
itself runOps of a prefix, so this statement covers all intermediate
states. -/
theorem ledger_exactly_one_queue (l : Ledger) (ops : List LedgerOp)
    (k : String × Datetime) (h : (allKeys l.store).count k = 1) :
    (allKeys (runOps ops l).store).count k = 1 := by
  rw [allKeys_runOps ops l]
  exact h

/-- Witness: the concrete ledger with one waiting and one claimed task,
after a claim, still holds the waiting task identity exactly once. -/
theorem ledger_exactly_one_queue_witness :
    (allKeys ledger1.store).count ("echo a", d2024) = 1 ∧
    (allKeys (runOps [LedgerOp.claimNext d2024b] ledger1).store).count ("echo a", d2024) = 1 :=
  ⟨by decide, ledger_exactly_one_queue ledger1 [LedgerOp.claimNext d2024b]
    ("echo a", d2024) (by decide)⟩

/-- C2: a successful get_waiting_task returns the head task with its
attempts incremented by exactly one, and unclaim_task on a task present
in claimed returns it and routes it to failed exactly when its attempts
have reached MAX_ATTEMPTS, appending it to the back of waiting
otherwise. -/
theorem attempts_increment_and_unclaim_routing (now : Datetime) (l : Ledger) :
    (∀ t rest, l.store.waiting = t :: rest →
      ∃ l1, get_waiting_task now l =
        some ({ t with attempts := t.attempts + 1, changed := now }, l1)) ∧
    (∀ task, task ∈ l.store.claimed →
      ∃ l2, unclaim_task task l = some (task, l2) ∧
        (MAX_ATTEMPTS ≤ task.attempts →
          l2.store.failed = l.store.failed ++ [task] ∧
          l2.store.waiting = l.store.waiting) ∧
        (task.attempts < MAX_ATTEMPTS →
          l2.store.waiting = l.store.waiting ++ [task] ∧
          l2.store.failed = l.store.failed)) := by
  constructor
  · intro t rest hw
    refine ⟨Ledger.save
      { store :=
          { waiting := rest,
            claimed := l.store.claimed ++ [{ t with attempts := t.attempts + 1, changed := now }],
            completed := l.store.completed,
            failed := l.store.failed },
        disk := l.disk }, ?_⟩
    unfold get_waiting_task
    rw [hw]
  · intro task hmem
    obtain ⟨ys, hpop⟩ := index_pop_of_mem task l.store.claimed hmem
    by_cases hatt : task.attempts < MAX_ATTEMPTS
    · refine ⟨Ledger.save { l with store :=
        { l.store with claimed := ys, waiting := l.store.waiting ++ [task] } },
        ?_, ?_, ?_⟩
      · unfold unclaim_task
        rw [hpop]
        dsimp only
        rw [if_pos hatt]
      · intro hge; exact absurd hatt (by omega)
      · intro _; exact ⟨rfl, rfl⟩
    · refine ⟨Ledger.save { l with store :=
        { l.store with claimed := ys, failed := l.store.failed ++ [task] } },
        ?_, ?_, ?_⟩
      · unfold unclaim_task
        rw [hpop]
        dsimp only
        rw [if_neg hatt]
      · intro _; exact ⟨rfl, rfl⟩
      · intro hlt; exact absurd hlt hatt

/-- Witness: both parts of the attempts and routing theorem at the
concrete ledger; the claimed task has 5 attempts and so routes to
failed. -/
theorem attempts_increment_and_unclaim_routing_witness :
    (ledger1.store.waiting = task0 :: [] ∧
      ∃ l1, get_waiting_task d2024b ledger1 =
        some ({ task0 with attempts := task0.attempts + 1, changed := d2024b }, l1)) ∧
    (task5 ∈ ledger1.store.claimed ∧
      ∃ l2, unclaim_task task5 ledger1 = some (task5, l2) ∧
        (MAX_ATTEMPTS ≤ task5.attempts →
          l2.store.failed = ledger1.store.failed ++ [task5] ∧
          l2.store.waiting = ledger1.store.waiting) ∧
        (task5.attempts < MAX_ATTEMPTS →
          l2.store.waiting = ledger1.store.waiting ++ [task5] ∧
          l2.store.failed = ledger1.store.failed)) :=
  ⟨⟨rfl, (attempts_increment_and_unclaim_routing d2024b ledger1).1 task0 [] rfl⟩,
   ⟨by decide, (attempts_increment_and_unclaim_routing d2024b ledger1).2 task5 (by decide)⟩⟩

/-- C5: get_waiting_task on an empty waiting queue fails (the IndexError
from pop, the EmptyQueue failure of the spec) without producing any
mutated state, and on a non-empty queue removes exactly the head,
increments its attempts, stamps changed, appends it to claimed, leaves
completed and failed untouched, persists the new store to disk, and
returns the task. -/
theorem claimNext_empty_fails_and_fifo (now : Datetime) (l : Ledger) :
    (l.store.waiting = [] ↔ get_waiting_task now l = none) ∧
    (∀ t rest, l.store.waiting = t :: rest →
      ∃ l', get_waiting_task now l =
          some ({ t with attempts := t.attempts + 1, changed := now }, l') ∧
        l'.store.waiting = rest ∧
        l'.store.claimed =
          l.store.claimed ++ [{ t with attempts := t.attempts + 1, changed := now }] ∧
        l'.store.completed = l.store.completed ∧
        l'.store.failed = l.store.failed ∧
        l'.disk = json_dump (store_to_py l'.store)) := by
  constructor
  · constructor
    · intro hw
      unfold get_waiting_task
      rw [hw]
    · intro hn
      cases hw : l.store.waiting with
      | nil => rfl
      | cons t rest =>
        unfold get_waiting_task at hn
        rw [hw] at hn
        exact absurd hn (by simp)
  · intro t rest hw
    refine ⟨Ledger.save
      { store :=
          { waiting := rest,
            claimed := l.store.claimed ++ [{ t with attempts := t.attempts + 1, changed := now }],
            completed := l.store.completed,
            failed := l.store.failed },
        disk := l.disk }, ?_, rfl, rfl, rfl, rfl, rfl⟩
    unfold get_waiting_task
    rw [hw]

/-- Witness: the empty-queue failure at the fresh empty ledger, and the
successful head claim at the concrete one-task ledger. -/
theorem claimNext_empty_fails_and_fifo_witness :
    (ledger0.store.waiting = [] ∧ get_waiting_task d2024b ledger0 = none) ∧
    (ledger1.store.waiting = task0 :: [] ∧
      ∃ l', get_waiting_task d2024b ledger1 =
          some ({ task0 with attempts := task0.attempts + 1, changed := d2024b }, l') ∧
        l'.store.waiting = [] ∧
        l'.store.claimed = ledger1.store.claimed ++
          [{ task0 with attempts := task0.attempts + 1, changed := d2024b }] ∧
        l'.store.completed = ledger1.store.completed ∧
        l'.store.failed = ledger1.store.failed ∧
        l'.disk = json_dump (store_to_py l'.store)) :=
  ⟨⟨rfl, (claimNext_empty_fails_and_fifo d2024b ledger0).1.mp rfl⟩,
   ⟨rfl, (claimNext_empty_fails_and_fifo d2024b ledger1).2 task0 [] rfl⟩⟩

/-- C8: constructing a Klient fails with NameError for every input,
because the f-string in the constructor reads the name connection_info,
which is bound neither as a local, nor as a krank module global, nor as
a builtin; the worker loop in Klient.run is therefore unreachable
through the public constructor. -/
theorem klient_init_raises_name_error (koordinator_host : String)
    (koordinator_port : Nat) (dummy : Bool) :
    klient_init koordinator_host koordinator_port dummy =
      Except.error (PyErr.nameError "connection_info") := rfl

theorem dispatch_failure_sent (l1 : Ledger) (nt : Option Task) (m : WireMsg) :
    (dispatch_failure l1 nt m).sent = m := by
  cases nt with
  | none => rfl
  | some t =>
    cases h : unclaim_task t l1 with
    | none => simp [dispatch_failure, h]
    | some pr => obtain ⟨a, b⟩ := pr; simp [dispatch_failure, h]

theorem dispatch_response_sent (now : Datetime) (l1 : Ledger) (nt : Option Task)
    (m : WireMsg) (r : KResponse) : (dispatch_response now l1 nt m r).sent = m := by
  cases r with
  | taskSuccess =>
    cases nt with
    | none => rfl
    | some t =>
      cases h : complete_task now t l1 with
      | none => simp [dispatch_response, h, dispatch_error]
      | some pr =>
        obtain ⟨a, b⟩ := pr
        simp [dispatch_response, h, dispatch_epilogue]
  | taskFailed =>
    cases nt with
    | none => rfl
    | some t =>
      cases h : unclaim_task t l1 with
      | none => simp [dispatch_response, h, dispatch_error]
      | some pr =>
        obtain ⟨a, b⟩ := pr
        simp [dispatch_response, h, dispatch_epilogue]
  | respCheckLater => rfl
  | respShutdown => rfl
  | unknownType => rfl

/-- C4: the message sent in a dispatch exchange is a function of the
ledger state alone: TASK_START with the head waiting command when
waiting is non-empty, otherwise CHECK_LATER when claimed is non-empty,
otherwise SHUTDOWN. -/
theorem dispatch_message_decision (now : Datetime) (l : Ledger) (input : ExchangeInput) :
    (dispatch now l input).sent =
      match l.store.waiting with
      | t :: _ => WireMsg.taskStartMsg t.command
      | [] =>
        if l.store.claimed.length != 0 then WireMsg.checkLaterMsg
        else WireMsg.shutdownMsg := by
  cases hw : l.store.waiting with
  | nil =>
    have hsent :
        (dispatch now l input).sent =
          (if l.store.claimed.length != 0 then WireMsg.checkLaterMsg
           else WireMsg.shutdownMsg) := by
      cases input with
      | timeoutErr => simp [dispatch, hw, dispatch_failure_sent]
      | malformedJson => simp [dispatch, hw, dispatch_failure_sent]
      | response r => simp [dispatch, hw, dispatch_response_sent]
    simp [hsent]
  | cons t rest =>
    have hget : get_waiting_task now l =
        some ({ t with attempts := t.attempts + 1, changed := now },
          Ledger.save { l with store :=
            { waiting := rest,
              claimed := l.store.claimed ++ [{ t with attempts := t.attempts + 1, changed := now }],
              completed := l.store.completed,
              failed := l.store.failed } }) := by
      unfold get_waiting_task
      rw [hw]
    have hsent : (dispatch now l input).sent = WireMsg.taskStartMsg t.command := by
      cases input with
      | timeoutErr => simp [dispatch, hw, hget, dispatch_failure_sent]
      | malformedJson => simp [dispatch, hw, hget, dispatch_failure_sent]
      | response r => simp [dispatch, hw, hget, dispatch_response_sent]
    simp [hsent]

/-- C6: when a task was claimed for the exchange (waiting was non-empty)
and the read of the response times out or yields malformed JSON, the
claimed task is unclaimed again under the attempts threshold rule, the
connection is closed, no exception escapes the handler and the
coordinator stays RUNNING.  The hypothesis that the freshly stamped
task is not already present in claimed rules out a value-identical
duplicate, which would make the pop-by-value remove the older copy. -/
theorem dispatch_timeout_unclaims (now : Datetime) (l : Ledger)
    (t : Task) (rest : List Task) (input : ExchangeInput)
    (hw : l.store.waiting = t :: rest)
    (hni : ({ t with attempts := t.attempts + 1, changed := now } : Task) ∉ l.store.claimed)
    (hin : input = ExchangeInput.timeoutErr ∨ input = ExchangeInput.malformedJson) :
    (dispatch now l input).connClosed = true ∧
    (dispatch now l input).handlerError = false ∧
    (dispatch now l input).initiatedShutdown = false ∧
    (dispatch now l input).koordState = RUNNING ∧
    (dispatch now l input).handedTask =
      some { t with attempts := t.attempts + 1, changed := now } ∧
    (dispatch now l input).ledger.store.claimed = l.store.claimed ∧
    (dispatch now l input).ledger.store.completed = l.store.completed ∧
    (t.attempts + 1 < MAX_ATTEMPTS →
      (dispatch now l input).ledger.store.waiting =
        rest ++ [{ t with attempts := t.attempts + 1, changed := now }] ∧
      (dispatch now l input).ledger.store.failed = l.store.failed) ∧
    (MAX_ATTEMPTS ≤ t.attempts + 1 →
      (dispatch now l input).ledger.store.failed =
        l.store.failed ++ [{ t with attempts := t.attempts + 1, changed := now }] ∧
      (dispatch now l input).ledger.store.waiting = rest) := by
  have hget : get_waiting_task now l =
      some ({ t with attempts := t.attempts + 1, changed := now },
        Ledger.save { l with store :=
          { waiting := rest,
            claimed := l.store.claimed ++ [{ t with attempts := t.attempts + 1, changed := now }],
            completed := l.store.completed,
            failed := l.store.failed } }) := by
    unfold get_waiting_task
    rw [hw]
  have hpop := index_pop_append_of_not_mem
    ({ t with attempts := t.attempts + 1, changed := now }) l.store.claimed hni
  have hmain : ∀ inp, inp = ExchangeInput.timeoutErr ∨ inp = ExchangeInput.malformedJson →
      dispatch now l inp = dispatch_failure
        (Ledger.save { l with store :=
          { waiting := rest,
            claimed := l.store.claimed ++ [{ t with attempts := t.attempts + 1, changed := now }],
            completed := l.store.completed,
            failed := l.store.failed } })
        (some { t with attempts := t.attempts + 1, changed := now })
        (WireMsg.taskStartMsg t.command) := by
    intro inp hinp
    cases hinp with
    | inl h1 => subst h1; simp [dispatch, hw, hget]
    | inr h1 => subst h1; simp [dispatch, hw, hget]
  rw [hmain input hin]
  by_cases hatt : t.attempts + 1 < MAX_ATTEMPTS
  · have hun : unclaim_task ({ t with attempts := t.attempts + 1, changed := now })
        (Ledger.save { l with store :=
          { waiting := rest,
            claimed := l.store.claimed ++ [{ t with attempts := t.attempts + 1, changed := now }],
            completed := l.store.completed,
            failed := l.store.failed } }) =
        some ({ t with attempts := t.attempts + 1, changed := now },
          Ledger.save { l with store :=
            { waiting := rest ++ [{ t with attempts := t.attempts + 1, changed := now }],
              claimed := l.store.claimed,
              completed := l.store.completed,
              failed := l.store.failed } }) := by
      unfold unclaim_task
      rw [show (Ledger.save { l with store :=
          { waiting := rest,
            claimed := l.store.claimed ++ [{ t with attempts := t.attempts + 1, changed := now }],
            completed := l.store.completed,
            failed := l.store.failed } }).store.claimed =
          l.store.claimed ++ [{ t with attempts := t.attempts + 1, changed := now }] from rfl]
      rw [hpop]
      dsimp only
      rw [if_pos hatt]
      rfl
    simp only [dispatch_failure, hun]
    and_intros <;>
      first
      | trivial
      | rfl
      | (intro hx; exact ⟨rfl, rfl⟩)
      | (intro hx; omega)
  · have hun : unclaim_task ({ t with attempts := t.attempts + 1, changed := now })
        (Ledger.save { l with store :=
          { waiting := rest,
            claimed := l.store.claimed ++ [{ t with attempts := t.attempts + 1, changed := now }],
            completed := l.store.completed,
            failed := l.store.failed } }) =
        some ({ t with attempts := t.attempts + 1, changed := now },
          Ledger.save { l with store :=
            { waiting := rest,
              claimed := l.store.claimed,
              completed := l.store.completed,
              failed := l.store.failed ++ [{ t with attempts := t.attempts + 1, changed := now }] } }) := by
      unfold unclaim_task
      rw [show (Ledger.save { l with store :=
          { waiting := rest,
            claimed := l.store.claimed ++ [{ t with attempts := t.attempts + 1, changed := now }],
            completed := l.store.completed,
            failed := l.store.failed } }).store.claimed =
          l.store.claimed ++ [{ t with attempts := t.attempts + 1, changed := now }] from rfl]
      rw [hpop]
      dsimp only
      rw [if_neg hatt]
      rfl
    simp only [dispatch_failure, hun]
    and_intros <;>
      first
      | trivial
      | rfl
      | (intro hx; exact ⟨rfl, rfl⟩)
      | (intro hx; omega)

/-- Witness: a concrete timed-out exchange on the one-waiting-task
ledger moves the claimed task back to waiting. -/
theorem dispatch_timeout_unclaims_witness :
    ledger1.store.waiting = task0 :: [] ∧
    ({ task0 with attempts := task0.attempts + 1, changed := d2024b } : Task) ∉
      ledger1.store.claimed ∧
    (dispatch d2024b ledger1 ExchangeInput.timeoutErr).connClosed = true ∧
    (dispatch d2024b ledger1 ExchangeInput.timeoutErr).handlerError = false ∧
    (dispatch d2024b ledger1 ExchangeInput.timeoutErr).initiatedShutdown = false ∧
    (task0.attempts + 1 < MAX_ATTEMPTS →
      (dispatch d2024b ledger1 ExchangeInput.timeoutErr).ledger.store.waiting =
        [] ++ [{ task0 with attempts := task0.attempts + 1, changed := d2024b }] ∧
      (dispatch d2024b ledger1 ExchangeInput.timeoutErr).ledger.store.failed =
        ledger1.store.failed) := by
  have h := dispatch_timeout_unclaims d2024b ledger1 task0 [] ExchangeInput.timeoutErr
    rfl (by decide) (Or.inl rfl)
  exact ⟨rfl, by decide, h.1, h.2.1, h.2.2.1, h.2.2.2.2.2.2.2.1⟩

/-- C7 counterexample: an exchange on the fully drained ledger (both
waiting and claimed empty) in which the read of the response times out.
No task was handed out and claimed is empty at the end of the exchange,
yet the early return in the except branch of dispatch skips the
shutdown check, so the coordinator does not initiate shutdown, contrary
to the claimed exactly-when condition. -/
theorem dispatch_timeout_skips_shutdown_counterexample :
    (dispatch d2024 ledger0 ExchangeInput.timeoutErr).handedTask = none ∧
    (dispatch d2024 ledger0 ExchangeInput.timeoutErr).ledger.store.claimed = [] ∧
    (dispatch d2024 ledger0 ExchangeInput.timeoutErr).initiatedShutdown = false :=
  ⟨rfl, rfl, rfl⟩

/-- C7 amended: the coordinator initiates shutdown at the end of a
dispatch exchange exactly when the exchange handed out no task, the
klient reply was a well-formed CHECK_LATER or SHUTDOWN acknowledgement
(on a timeout, malformed JSON, an unknown type, or a success or failure
report with no claimed task the handler returns or raises before the
shutdown check), and the claimed queue is empty; in particular it never
initiates shutdown while any task remains in the claimed queue. -/
theorem dispatch_shutdown_characterization (now : Datetime) (l : Ledger)
    (input : ExchangeInput) :
    (dispatch now l input).initiatedShutdown = true ↔
      (l.store.waiting = [] ∧ l.store.claimed = [] ∧
        (input = ExchangeInput.response KResponse.respCheckLater ∨
         input = ExchangeInput.response KResponse.respShutdown)) := by
  cases hw : l.store.waiting with
  | nil =>
    cases input with
    | timeoutErr =>
      simp [dispatch, hw, dispatch_failure]
    | malformedJson =>
      simp [dispatch, hw, dispatch_failure]
    | response r =>
      cases r with
      | taskSuccess => simp [dispatch, hw, dispatch_response, dispatch_error]
      | taskFailed => simp [dispatch, hw, dispatch_response, dispatch_error]
      | respCheckLater =>
        simp [dispatch, hw, dispatch_response, dispatch_epilogue, List.length_eq_zero]
      | respShutdown =>
        simp [dispatch, hw, dispatch_response, dispatch_epilogue, List.length_eq_zero]
      | unknownType => simp [dispatch, hw, dispatch_response, dispatch_error]
  | cons t rest =>
    have hget : get_waiting_task now l =
        some ({ t with attempts := t.attempts + 1, changed := now },
          Ledger.save { l with store :=
            { waiting := rest,
              claimed := l.store.claimed ++ [{ t with attempts := t.attempts + 1, changed := now }],
              completed := l.store.completed,
              failed := l.store.failed } }) := by
      unfold get_waiting_task
      rw [hw]
    cases input with
    | timeoutErr =>
      simp only [dispatch, hw]
      rw [hget]
      simp [hw, dispatch_failure_sent]
      cases hu : unclaim_task ({ t with attempts := t.attempts + 1, changed := now })
          (Ledger.save { l with store :=
            { waiting := rest,
              claimed := l.store.claimed ++ [{ t with attempts := t.attempts + 1, changed := now }],
              completed := l.store.completed,
              failed := l.store.failed } }) with
      | none => simp [dispatch_failure, hu]
      | some pr => obtain ⟨a, b⟩ := pr; simp [dispatch_failure, hu]
    | malformedJson =>
      simp only [dispatch, hw]
      rw [hget]
      simp [hw]
      cases hu : unclaim_task ({ t with attempts := t.attempts + 1, changed := now })
          (Ledger.save { l with store :=
            { waiting := rest,
              claimed := l.store.claimed ++ [{ t with attempts := t.attempts + 1, changed := now }],
              completed := l.store.completed,
              failed := l.store.failed } }) with
      | none => simp [dispatch_failure, hu]
      | some pr => obtain ⟨a, b⟩ := pr; simp [dispatch_failure, hu]
    | response r =>
      cases r with
      | taskSuccess =>
        simp only [dispatch, hw]
        rw [hget]
        simp [hw]
        cases hc : complete_task now ({ t with attempts := t.attempts + 1, changed := now })
            (Ledger.save { l with store :=
              { waiting := rest,
                claimed := l.store.claimed ++ [{ t with attempts := t.attempts + 1, changed := now }],
                completed := l.store.completed,
                failed := l.store.failed } }) with
        | none => simp [dispatch_response, hc, dispatch_error]
        | some pr =>
          obtain ⟨a, b⟩ := pr
          simp [dispatch_response, hc, dispatch_epilogue]
      | taskFailed =>
        simp only [dispatch, hw]
        rw [hget]
        simp [hw]
        cases hu : unclaim_task ({ t with attempts := t.attempts + 1, changed := now })
            (Ledger.save { l with store :=
              { waiting := rest,
                claimed := l.store.claimed ++ [{ t with attempts := t.attempts + 1, changed := now }],
                completed := l.store.completed,
                failed := l.store.failed } }) with
        | none => simp [dispatch_response, hu, dispatch_error]
        | some pr =>
          obtain ⟨a, b⟩ := pr
          simp [dispatch_response, hu, dispatch_epilogue]
      | respCheckLater =>
        simp only [dispatch, hw]
        rw [hget]
        simp [hw, dispatch_response, dispatch_epilogue]
      | respShutdown =>
        simp only [dispatch, hw]
        rw [hget]
        simp [hw, dispatch_response, dispatch_epilogue]
      | unknownType =>
        simp only [dispatch, hw]
        rw [hget]
        simp [hw, dispatch_response, dispatch_error]

/-- A parsed snapshot with the four queue keys but a number where the
WAITING sequence should be: not task-shaped, yet accepted by the key-set
check. -/
def badSnapshotJ : JValue :=
  JValue.jobj
    [("WAITING", JValue.jnum 7), ("CLAIMED", JValue.jarr []),
     ("COMPLETED", JValue.jarr []), ("FAILED", JValue.jarr [])]

/-- C9 counterexample: from_disk only inspects the key set of the parsed
snapshot, so a file whose WAITING entry is the number 7 rather than a
sequence of task records is accepted instead of failing with
CorruptLedger as the claim requires. -/
theorem from_disk_accepts_nontask_values :
    from_disk_check badSnapshotJ =
      Except.ok (PyValue.pydict
        [("WAITING", PyValue.pynum 7), ("CLAIMED", PyValue.pylist []),
         ("COMPLETED", PyValue.pylist []), ("FAILED", PyValue.pylist [])]) := rfl

/-- C9 amended: from_disk on an existing snapshot succeeds exactly when
the parsed and hook-decoded value is a dict whose key set equals the
four queue names WAITING, CLAIMED, COMPLETED, FAILED; the shape of the
queue values is not validated.  In particular a snapshot missing any of
the four keys is rejected. -/
theorem from_disk_keyset_check (j : JValue) (store : PyValue)
    (h : json_load j = some store) :
    (from_disk_check j = Except.ok store ↔
      ∃ fields, store = PyValue.pydict fields ∧
        setEqStr (fields.map Prod.fst) TASK_STATES = true) := by
  unfold from_disk_check
  rw [h]
  cases store with
  | pynum n => simp
  | pystr s => simp
  | pylist items => simp
  | pydatetime d => simp
  | pydict fields =>
    dsimp only
    by_cases hk : setEqStr (fields.map Prod.fst) TASK_STATES = true
    · rw [if_pos hk]
      exact iff_of_true rfl ⟨fields, rfl, hk⟩
    · rw [if_neg hk]
      constructor
      · intro hco; exact absurd hco (by simp)
      · rintro ⟨f, hf, hset⟩
        obtain rfl : fields = f := by
          injection hf
        exact absurd hset hk

/-- The serialized empty snapshot, as from_disk writes it for a fresh
ledger. -/
def emptySnapshotJ : JValue :=
  JValue.jobj
    [("WAITING", JValue.jarr []), ("CLAIMED", JValue.jarr []),
     ("COMPLETED", JValue.jarr []), ("FAILED", JValue.jarr [])]

/-- The decoded Python value of the empty snapshot. -/
def emptyStorePy : PyValue :=
  PyValue.pydict
    [("WAITING", PyValue.pylist []), ("CLAIMED", PyValue.pylist []),
     ("COMPLETED", PyValue.pylist []), ("FAILED", PyValue.pylist [])]

/-- Witness: the empty snapshot parses, carries exactly the four keys,
and is therefore accepted. -/
theorem from_disk_keyset_check_witness :
    json_load emptySnapshotJ = some emptyStorePy ∧
    from_disk_check emptySnapshotJ = Except.ok emptyStorePy :=
  ⟨rfl, (from_disk_keyset_check emptySnapshotJ emptyStorePy rfl).mpr ⟨_, rfl, rfl⟩⟩

/-- Length of the WAITING array inside a serialized snapshot, used to
tell two snapshots apart. -/
def jWaitingLen : Option JValue → Option Nat
  | some (JValue.jobj fields) =>
    match fields.lookup "WAITING" with
    | some (JValue.jarr items) => some items.length
    | _ => none
  | _ => none

/-- C3 is violated by add_many: starting from a freshly saved empty
ledger, add_many extends the in-memory waiting queue but, unlike
add_command, get_waiting_task, complete_task and unclaim_task, never
calls save, so when it returns the on-disk snapshot (zero waiting
tasks) differs from the serialization of the in-memory store (one
waiting task). -/
theorem add_many_not_persisted :
    jWaitingLen (add_many d2024 "echo" [["a"]] ledger0).2.disk = some 0 ∧
    jWaitingLen (json_dump (store_to_py (add_many d2024 "echo" [["a"]] ledger0).2.store)) =
      some 1 ∧
    (add_many d2024 "echo" [["a"]] ledger0).2.disk ≠
      json_dump (store_to_py (add_many d2024 "echo" [["a"]] ledger0).2.store) := by
  refine ⟨rfl, rfl, fun h => ?_⟩
  have h2 : (some 0 : Option Nat) = some 1 := congrArg jWaitingLen h
  exact absurd (Option.some.inj h2) (by omega)

/-- The JSON encoding of one datetime: the tagged object produced by
custom_json_encodings. -/
def dtJ (d : Datetime) : JValue :=
  JValue.jobj [("__isoformat__", JValue.jnum 1), ("datetime", JValue.jstr (isoformat d))]

/-- The JSON encoding of one task record. -/
def taskJ (t : Task) : JValue :=
  JValue.jobj
    [("command", JValue.jstr t.command),
     ("created", dtJ t.created),
     ("changed", dtJ t.changed),
     ("attempts", JValue.jnum t.attempts)]

/-- The JSON encoding of a full store, the content Ledger.save writes. -/
def storeJ (s : Store) : JValue :=
  JValue.jobj
    [("WAITING", JValue.jarr (s.waiting.map taskJ)),
     ("CLAIMED", JValue.jarr (s.claimed.map taskJ)),
     ("COMPLETED", JValue.jarr (s.completed.map taskJ)),
     ("FAILED", JValue.jarr (s.failed.map taskJ))]

theorem json_dump_task (t : Task) : json_dump (task_to_py t) = some (taskJ t) := rfl

theorem json_dump_task_list (ts : List Task) :
    json_dump_list (ts.map task_to_py) = some (ts.map taskJ) := by
  induction ts with
  | nil => rfl
  | cons t ts ih =>
    simp only [List.map_cons, json_dump_list, json_dump_task t, ih]

theorem json_dump_store (s : Store) : json_dump (store_to_py s) = some (storeJ s) := by
  simp only [store_to_py, storeJ, json_dump, json_dump_fields, json_dump,
    json_dump_task_list]

theorem json_load_dtJ {d : Datetime} (h : ValidDatetime d) :
    json_load (dtJ d) = some (PyValue.pydatetime d) := by
  show (fromisoformat (isoformat d)).map PyValue.pydatetime = some (PyValue.pydatetime d)
  rw [fromisoformat_isoformat d h]
  rfl

theorem json_load_fields_cons (k : String) (j : JValue) (fs : List (String × JValue))
    (v : PyValue) (vs : List (String × PyValue))
    (hj : json_load j = some v) (hfs : json_load_fields fs = some vs) :
    json_load_fields ((k, j) :: fs) = some ((k, v) :: vs) := by
  show (match json_load j, json_load_fields fs with
    | some v, some vs => some ((k, v) :: vs)
    | _, _ => none) = some ((k, v) :: vs)
  rw [hj, hfs]

theorem json_load_list_cons (j : JValue) (js : List JValue) (v : PyValue) (vs : List PyValue)
    (hj : json_load j = some v) (hjs : json_load_list js = some vs) :
    json_load_list (j :: js) = some (v :: vs) := by
  show (match json_load j, json_load_list js with
    | some v, some vs => some (v :: vs)
    | _, _ => none) = some (v :: vs)
  rw [hj, hjs]

theorem json_load_arr {items : List JValue} {vs : List PyValue}
    (h : json_load_list items = some vs) :
    json_load (JValue.jarr items) = some (PyValue.pylist vs) := by
  show (match json_load_list items with
    | some vs => some (PyValue.pylist vs)
    | none => none) = some (PyValue.pylist vs)
  rw [h]

theorem json_load_obj {fields : List (String × JValue)} {fs : List (String × PyValue)}
    (h : json_load_fields fields = some fs) :
    json_load (JValue.jobj fields) = custom_json_decodings fs := by
  show (match json_load_fields fields with
    | some fs => custom_json_decodings fs
    | none => none) = custom_json_decodings fs
  rw [h]

theorem json_load_taskJ {t : Task} (h1 : ValidDatetime t.created)
    (h2 : ValidDatetime t.changed) :
    json_load (taskJ t) = some (task_to_py t) := by
  have key := json_load_fields_cons "command" (JValue.jstr t.command) _
    (PyValue.pystr t.command) _ rfl
    (json_load_fields_cons "created" (dtJ t.created) _ (PyValue.pydatetime t.created) _
      (json_load_dtJ h1)
      (json_load_fields_cons "changed" (dtJ t.changed) _ (PyValue.pydatetime t.changed) _
        (json_load_dtJ h2)
        (show json_load_fields [("attempts", JValue.jnum t.attempts)] =
          some [("attempts", PyValue.pynum t.attempts)] from rfl)))
  rw [show taskJ t = JValue.jobj
      [("command", JValue.jstr t.command), ("created", dtJ t.created),
       ("changed", dtJ t.changed), ("attempts", JValue.jnum t.attempts)] from rfl,
    json_load_obj key]
  rfl

/-- Validity of one task in a store: its timestamps came from datetime
objects, whose field bounds always hold. -/
def ValidTask (t : Task) : Prop :=
  ValidDatetime t.created ∧ ValidDatetime t.changed

instance (t : Task) : Decidable (ValidTask t) := by
  unfold ValidTask; infer_instance

theorem json_load_task_list {ts : List Task} (h : ∀ t ∈ ts, ValidTask t) :
    json_load_list (ts.map taskJ) = some (ts.map task_to_py) := by
  induction ts with
  | nil => rfl
  | cons t ts ih =>
    obtain ⟨ht1, ht2⟩ := h t (List.mem_cons_self t ts)
    rw [List.map_cons, List.map_cons,
      json_load_list_cons _ _ _ _ (json_load_taskJ ht1 ht2)
        (ih (fun x hx => h x (List.mem_cons_of_mem t hx)))]

/-- Validity of a whole store. -/
def ValidStore (s : Store) : Prop :=
  (∀ t ∈ s.waiting, ValidTask t) ∧ (∀ t ∈ s.claimed, ValidTask t) ∧
    (∀ t ∈ s.completed, ValidTask t) ∧ (∀ t ∈ s.failed, ValidTask t)

instance (s : Store) : Decidable (ValidStore s) := by
  unfold ValidStore; infer_instance

theorem json_load_storeJ {s : Store} (h : ValidStore s) :
    json_load (storeJ s) = some (store_to_py s) := by
  obtain ⟨h1, h2, h3, h4⟩ := h
  have key := json_load_fields_cons "WAITING" _ _ _ _
    (json_load_arr (json_load_task_list h1))
    (json_load_fields_cons "CLAIMED" _ _ _ _
      (json_load_arr (json_load_task_list h2))
      (json_load_fields_cons "COMPLETED" _ _ _ _
        (json_load_arr (json_load_task_list h3))
        (json_load_fields_cons "FAILED" _ _ _ _
          (json_load_arr (json_load_task_list h4))
          (show json_load_fields ([] : List (String × JValue)) = some [] from rfl))))
  rw [show storeJ s = JValue.jobj
      [("WAITING", JValue.jarr (s.waiting.map taskJ)),
       ("CLAIMED", JValue.jarr (s.claimed.map taskJ)),
       ("COMPLETED", JValue.jarr (s.completed.map taskJ)),
       ("FAILED", JValue.jarr (s.failed.map taskJ))] from rfl,
    json_load_obj key]
  rfl

/-- C10: saving any valid ledger store and reloading the written
snapshot through from_disk succeeds and reproduces the exact in-memory
Python value of the store: all four queues, with every created and
changed timestamp surviving the tagged ISO-8601 encoding and decoding
exactly. -/
theorem save_reload_roundtrip (s : Store) (h : ValidStore s) :
    ∃ j, json_dump (store_to_py s) = some j ∧
      from_disk_check j = Except.ok (store_to_py s) := by
  refine ⟨storeJ s, json_dump_store s, ?_⟩
  unfold from_disk_check
  rw [json_load_storeJ h]
  rfl

/-- A concrete one-task store used by the round-trip witness; its task
has a microsecond-free created stamp and a microsecond-bearing changed
stamp, exercising both isoformat shapes. -/
def store1 : Store :=
  { waiting := [{ command := "echo a", created := d2024, changed := d2024b, attempts := 0 }],
    claimed := [], completed := [], failed := [] }

/-- Witness: the round trip at the concrete one-task store. -/
theorem save_reload_roundtrip_witness :
    ValidStore store1 ∧
    ∃ j, json_dump (store_to_py store1) = some j ∧
      from_disk_check j = Except.ok (store_to_py store1) :=
  ⟨by decide, save_reload_roundtrip store1 (by decide)⟩

end Krank
